import Mathlib

/-
Verification of the executor core of a two-stage LLM agent
(planner plus tool-calling executor).

The development shallowly embeds the executor (main.py) and its two tool
modules (tools/scrape_website.py, tools/get_relevant_data.py).

External collaborators are modelled as oracles carried by an explicit
state or environment value:
  World.files   - the file system (path to content)
  World.fetch   - the httpx fast-path GET per url (none means the request
                  raised, matching the try/except around the fast path)
  World.render  - the headless-browser page content per url (none means
                  the rendering path raised)
  World.runProc - the subprocess outcome of running a given code string
  ChatEnv.chat  - the chat-completion gateway (conversation to reply)
  ChatEnv.parseJson / parseArgsJson - the json library (none on parse error)
  ChatEnv.elapsed - elapsed wall-clock seconds at each iteration boundary

The markup extraction library (BeautifulSoup) is modelled concretely by a
small DOM tree, a well-formed-markup parser, class and tag selectors and
the visible-text collector, because the claims test its concrete values.
Markup outside the well-formed subset maps to none, which the theorems
treat as outside the model.
-/

/-- Python whitespace characters used by str.strip. -/
def isPyWs (c : Char) : Bool :=
  c == ' ' || c == '\t' || c == '\n' || c == '\r' || c == '\x0b' || c == '\x0c'

/-- Python str.strip with no arguments: drop leading and trailing whitespace. -/
def pyStrip (s : String) : String :=
  String.mk (((s.data.dropWhile isPyWs).reverse.dropWhile isPyWs).reverse)

/-- Lower-case hexadecimal digit. -/
def hexDigit (n : Nat) : Char :=
  if n < 10 then Char.ofNat (48 + n) else Char.ofNat (97 + (n - 10))

/-- Four hexadecimal digits, as json.dumps uses in unicode escapes. -/
def hex4 (n : Nat) : String :=
  String.mk [hexDigit ((n / 4096) % 16), hexDigit ((n / 256) % 16),
    hexDigit ((n / 16) % 16), hexDigit (n % 16)]

/-- One character of the json.dumps string encoder with default
ensure_ascii behaviour (characters outside printable ASCII become
unicode escapes; astral characters are outside the model). -/
def jsonEscChar (c : Char) : String :=
  if c == '\"' then "\\\""
  else if c == '\\' then "\\\\"
  else if c == '\n' then "\\n"
  else if c == '\t' then "\\t"
  else if c == '\r' then "\\r"
  else if c == '\x08' then "\\b"
  else if c == '\x0c' then "\\f"
  else if c.toNat < 32 || 126 < c.toNat then "\\u" ++ hex4 c.toNat
  else String.singleton c

/-- json.dumps of a string value. -/
def jsonStr (s : String) : String :=
  "\"" ++ String.join (s.data.map jsonEscChar) ++ "\""

/-- json.dumps of a list of strings (default separators). -/
def jsonStrList (xs : List String) : String :=
  "[" ++ String.intercalate ", " (xs.map jsonStr) ++ "]"

/-- An apostrophe, kept out of literals for hygiene. -/
def SQ : String := String.singleton (Char.ofNat 39)

/-- Outcome of one subprocess.run invocation (capture_output=True, text=True). -/
structure ProcResult where
  stdout : String
  stderr : String
  returncode : Int
deriving DecidableEq

/-- The httpx fast-path response visible to scrape_website. -/
structure FetchResp where
  status : Nat
  text : String
deriving DecidableEq

/-- The mutable outside world threaded through tool calls. -/
structure World where
  files : String → Option String
  fetch : String → Option FetchResp
  render : String → Option String
  runProc : String → ProcResult

/-- Write one file, leaving every other world component untouched. -/
def setFile (w : World) (path content : String) : World :=
  { w with files := fun p => if p = path then some content else w.files p }

/-- outputs/temp_script.py, the fixed scratch path of the code runner. -/
def TEMP_SCRIPT_PATH : String := "outputs/temp_script.py"

/-- json.dumps of the code-runner failure payload built in main.py. -/
def codeFailedPayload (stderr : String) : String :=
  "\x7b\"error\": \"code_failed\", \"stderr\": " ++ jsonStr stderr ++ "\x7d"

/-- main.py answer_questions: persist the code to the scratch file, run it,
and return stdout, or the failure payload when the process exited non-zero
with whitespace-only stdout. The process outcome is the runProc oracle keyed
by the code string, evaluated on the pre-write world; the write cannot
influence it because the oracle reads no file. -/
def answer_questions (code : String) (w : World) : String × World :=
  if (w.runProc code).returncode ≠ 0 ∧ pyStrip (w.runProc code).stdout = "" then
    (codeFailedPayload (w.runProc code).stderr, setFile w TEMP_SCRIPT_PATH code)
  else
    ((w.runProc code).stdout, setFile w TEMP_SCRIPT_PATH code)

/-- The scrape_website result record (ok is always true in the source). -/
structure ScrapeResult where
  ok : Bool
  file : String
  url : String
  engine : String
deriving DecidableEq

/-- tools/scrape_website.py fallback: headless browser fetch; none models the
exception escaping when the browser path also fails. -/
def scrapeFallback (url output_file : String) (w : World) : Option ScrapeResult × World :=
  match w.render url with
  | some html => (some ⟨true, output_file, url, "playwright"⟩, setFile w output_file html)
  | none => (none, w)

/-- tools/scrape_website.py: fast httpx path first; keep its body when the
status is 200 and the body length exceeds 10000, otherwise fall back to the
browser path. -/
def scrape_website (url output_file : String) (w : World) : Option ScrapeResult × World :=
  match w.fetch url with
  | some r =>
    if r.status = 200 ∧ 10000 < r.text.length then
      (some ⟨true, output_file, url, "httpx"⟩, setFile w output_file r.text)
    else scrapeFallback url output_file w
  | none => scrapeFallback url output_file w

/-- The smallest body length accepted by the fast path: the source keeps the
fast path when the body length is strictly greater than 10000. -/
def SIZE_THRESHOLD : Nat := 10001

/-- json.dumps of a bool. -/
def boolJson (b : Bool) : String := if b then "true" else "false"

/-- json.dumps of the scrape_website result dict, in insertion order. -/
def scrapeResultJson (r : ScrapeResult) : String :=
  "\x7b\"ok\": " ++ boolJson r.ok ++ ", \"file\": " ++ jsonStr r.file ++
    ", \"url\": " ++ jsonStr r.url ++ ", \"engine\": " ++ jsonStr r.engine ++ "\x7d"

/-- DOM node of the markup model standing in for the BeautifulSoup tree. -/
inductive HNode where
  | text (s : String)
  | elem (tag : String) (attrs : List (String × String)) (children : List HNode)

/-- Split a character run on whitespace, with an accumulator. -/
def splitWsAux : List Char → List Char → List String
  | [], acc => [String.mk acc.reverse]
  | c :: rest, acc =>
    if isPyWs c then String.mk acc.reverse :: splitWsAux rest []
    else splitWsAux rest (c :: acc)

/-- Class attribute values split on whitespace. -/
def splitClasses (v : String) : List String :=
  (splitWsAux v.data []).filter (fun s => !s.isEmpty)

/-- First attribute value with the given key. -/
def attrLookup (attrs : List (String × String)) (k : String) : Option String :=
  match attrs.find? (fun p => p.fst == k) with
  | some p => some p.snd
  | none => none

/-- Does an element match a selector: .name matches by class, a bare name
matches the tag (the selector subset the tool contract exercises). -/
def selMatches (sel tag : String) (attrs : List (String × String)) : Bool :=
  match sel.data with
  | '.' :: cls =>
    match attrLookup attrs "class" with
    | some v => (splitClasses v).contains (String.mk cls)
    | none => false
  | _ => sel == tag

mutual

/-- All elements matching the selector below a node, in document order. -/
def selectNode (sel : String) : HNode → List HNode
  | .text _ => []
  | .elem t a ch =>
    (if selMatches sel t a then [HNode.elem t a ch] else []) ++ selectNodes sel ch
termination_by structural n => n

/-- All elements matching the selector below a node list, in document order. -/
def selectNodes (sel : String) : List HNode → List HNode
  | [] => []
  | n :: rest => selectNode sel n ++ selectNodes sel rest
termination_by structural ns => ns

end

/-- All elements of the document matching the selector, in document order. -/
def selectList (sel : String) (ns : List HNode) : List HNode :=
  selectNodes sel ns

mutual

/-- The raw text fragments below a node, in document order. -/
def nodeStrings : HNode → List String
  | .text s => [s]
  | .elem _ _ ch => nodesStrings ch
termination_by structural n => n

/-- The raw text fragments below a node list, in document order. -/
def nodesStrings : List HNode → List String
  | [] => []
  | n :: rest => nodeStrings n ++ nodesStrings rest
termination_by structural ns => ns

end

/-- The raw text fragments below a node list, in document order. -/
def listStrings (ns : List HNode) : List String :=
  nodesStrings ns

/-- get_text of one element with strip=True and empty separator: strip each
fragment, drop the empty ones, concatenate. -/
def getTextStrip (n : HNode) : String :=
  String.join (((nodeStrings n).map pyStrip).filter (fun s => !s.isEmpty))

/-- get_text of the whole document with a space separator and strip=True. -/
def docText (ns : List HNode) : String :=
  String.intercalate " " (((listStrings ns).map pyStrip).filter (fun s => !s.isEmpty))

/-- Whitespace skip for the markup parser. -/
def dropWs (cs : List Char) : List Char := cs.dropWhile isPyWs

/-- Characters ending a tag or attribute name. -/
def isNameEnd (c : Char) : Bool := isPyWs c || c == '=' || c == '>' || c == '/'

/-- Attribute list parser of the markup model: reads name="value" pairs up to
the closing angle bracket. Fuelled; none means malformed or out of fuel. -/
def parseAttrs : Nat → List Char → Option (List (String × String) × List Char)
  | 0, _ => none
  | fuel + 1, cs =>
    match dropWs cs with
    | [] => none
    | c :: rest =>
      if c == '>' then some ([], rest)
      else
        let nm := (c :: rest).takeWhile (fun d => !isNameEnd d)
        let cs2 := (c :: rest).drop nm.length
        match cs2 with
        | '=' :: '\"' :: cs3 =>
          let v := cs3.takeWhile (fun d => d != '\"')
          let cs4 := cs3.drop (v.length + 1)
          match parseAttrs fuel cs4 with
          | some (attrs, rest2) => some ((String.mk nm, String.mk v) :: attrs, rest2)
          | none => none
        | _ =>
          match parseAttrs fuel cs2 with
          | some (attrs, rest2) => some ((String.mk nm, "") :: attrs, rest2)
          | none => none

/-- Node list parser of the markup model: text runs and properly closed
elements; stops before a closing tag. Fuelled; none means malformed input
(outside the modelled well-formed subset) or out of fuel. -/
def parseNodes : Nat → List Char → Option (List HNode × List Char)
  | 0, _ => none
  | fuel + 1, cs =>
    match cs with
    | [] => some ([], [])
    | '<' :: '/' :: _ => some ([], cs)
    | '<' :: rest =>
      let tg := rest.takeWhile (fun d => !isNameEnd d)
      if tg.isEmpty then none
      else
        match parseAttrs fuel (rest.drop tg.length) with
        | none => none
        | some (attrs, afterOpen) =>
          match parseNodes fuel afterOpen with
          | none => none
          | some (children, afterChildren) =>
            match afterChildren with
            | '<' :: '/' :: cs3 =>
              let ctag := cs3.takeWhile (fun d => d != '>')
              if ctag = tg then
                match parseNodes fuel (cs3.drop (ctag.length + 1)) with
                | none => none
                | some (siblings, rest2) =>
                  some (HNode.elem (String.mk tg) attrs children :: siblings, rest2)
              else none
            | _ => none
    | _ =>
      let t := cs.takeWhile (fun d => d != '<')
      match parseNodes fuel (cs.drop t.length) with
      | none => none
      | some (ns, rest2) => some (HNode.text (String.mk t) :: ns, rest2)

/-- Parse a whole markup document; none when outside the modelled subset. -/
def parseHtml (s : String) : Option (List HNode) :=
  match parseNodes (2 * s.length + 8) s.data with
  | some (ns, []) => some ns
  | _ => none

/-- The extraction result: a dict with data, count and selector keys when a
selector was used, or a dict with only a data key holding one string. -/
inductive ExtractResult where
  | selected (data : List String) (count : Nat) (selector : String)
  | whole (data : String)
deriving DecidableEq

/-- Python truthiness of an optional string: None and the empty string are
falsy. -/
def pyTruthy : Option String → Bool
  | none => false
  | some s => !s.isEmpty

/-- tools/get_relevant_data.py: read the saved markup, parse it, and either
select by the given selector (texts in order plus count) or return the whole
visible text. none models the file-read exception escaping, or markup
outside the modelled parser subset. -/
def get_relevant_data (file_name : String) (js_selector : Option String) (w : World) :
    Option ExtractResult :=
  match w.files file_name with
  | none => none
  | some html =>
    match parseHtml html with
    | none => none
    | some doc =>
      if pyTruthy js_selector then
        some (ExtractResult.selected
          ((selectList (js_selector.getD "") doc).map getTextStrip)
          (selectList (js_selector.getD "") doc).length
          (js_selector.getD ""))
      else some (ExtractResult.whole (docText doc))

/-- json.dumps of the get_relevant_data result dict, in insertion order. -/
def extractResultJson : ExtractResult → String
  | .selected data count selector =>
    "\x7b\"data\": " ++ jsonStrList data ++ ", \"count\": " ++ toString count ++
      ", \"selector\": " ++ jsonStr selector ++ "\x7d"
  | .whole data => "\x7b\"data\": " ++ jsonStr data ++ "\x7d"

/-- The argument mapping a tool call may carry (keys of the three schemas). -/
structure Args where
  url : Option String := none
  output_file : Option String := none
  file_name : Option String := none
  js_selector : Option String := none
  code : Option String := none
deriving DecidableEq

/-- json.dumps of the unknown-tool payload built in main.py. -/
def unknownToolPayload (name : String) : String :=
  "\x7b\"ok\": false, \"error\": " ++
    jsonStr ("Unknown tool " ++ SQ ++ name ++ SQ) ++ "\x7d"

/-- main.py _call_tool: exact-name dispatch to the three tools, any other
name becoming an error payload returned as data. The first component is the
output string, none meaning an exception propagated to the loop. -/
def call_tool (name : String) (args : Args) (w : World) : Option String × World :=
  if name = "scrape_website" then
    match args.url with
    | none => (none, w)
    | some u =>
      ((scrape_website u (args.output_file.getD "outputs/scraped_content.html") w).fst.map
          scrapeResultJson,
        (scrape_website u (args.output_file.getD "outputs/scraped_content.html") w).snd)
  else if name = "get_relevant_data" then
    match args.file_name with
    | none => (none, w)
    | some f => ((get_relevant_data f args.js_selector w).map extractResultJson, w)
  else if name = "answer_questions" then
    match args.code with
    | none => (none, w)
    | some c => (some (answer_questions c w).fst, (answer_questions c w).snd)
  else (some (unknownToolPayload name), w)

/-- A JSON value, the shape of the parsed final answer. -/
inductive Json where
  | null
  | bool (b : Bool)
  | num (n : Int)
  | str (s : String)
  | arr (elems : List Json)
  | obj (fields : List (String × Json))

/-- The raw arguments field of a tool call: Python None, an already decoded
mapping, or a JSON text to be decoded. -/
inductive RawArgs where
  | null
  | dict (a : Args)
  | str (s : String)
deriving DecidableEq

/-- One tool-call request inside an assistant reply. -/
structure ToolCall where
  id : String
  name : String
  arguments : RawArgs
deriving DecidableEq

/-- A conversation message as serialized by main.py. -/
inductive Message where
  | system (content : String)
  | user (content : String)
  | assistant (content : Option String) (tool_calls : List ToolCall)
  | tool (tool_call_id : String) (content : String)
deriving DecidableEq

/-- The assistant reply returned by one gateway call. -/
structure AssistantMsg where
  content : Option String
  tool_calls : List ToolCall

/-- The environment the loop runs against: the chat gateway, the json
library, the clock (elapsed seconds before iteration k, counting model calls
already made) and the configured budget. -/
structure ChatEnv where
  chat : List Message → AssistantMsg
  parseJson : String → Option Json
  parseArgsJson : String → Option Args
  elapsed : Nat → Nat
  budget : Nat

/-- main.py _parse_args: None and undecodable text become the empty mapping. -/
def parse_args (parseArgsJson : String → Option Args) : RawArgs → Args
  | .null => {}
  | .dict a => a
  | .str s =>
    match parseArgsJson s with
    | some a => a
    | none => {}

/-- The per-reply tool pass of the loop body: dispatch each requested call in
order, appending one tool message per call; none when a tool raises. -/
def processToolCalls (env : ChatEnv) (w : World) (msgs : List Message) :
    List ToolCall → Option (World × List Message)
  | [] => some (w, msgs)
  | tc :: rest =>
    match call_tool tc.name (parse_args env.parseArgsJson tc.arguments) w with
    | (none, _) => none
    | (some out, w2) =>
      processToolCalls env w2 (msgs ++ [Message.tool tc.id out]) rest

/-- How one execution of the loop ends. -/
inductive Outcome where
  | timeout
  | malformed
  | toolError
  | final (v : Json)

/-- One iteration of the loop: done carries the outcome and the number of
model calls the iteration made, cont carries the grown conversation. -/
inductive StepRes where
  | done (o : Outcome) (calls : Nat)
  | cont (w : World) (msgs : List Message)

/-- The body of the while loop in run_agent_for_api: budget check at the
iteration boundary first, then one model call; a reply without tool calls is
terminal (strip, then json parse), a reply with tool calls appends the
assistant message and one tool message per call. -/
def loopStep (env : ChatEnv) (w : World) (msgs : List Message) (k : Nat) : StepRes :=
  if env.budget < env.elapsed k then StepRes.done Outcome.timeout 0
  else
    let msg := env.chat msgs
    if msg.tool_calls = [] then
      match env.parseJson (pyStrip (msg.content.getD "")) with
      | some v => StepRes.done (Outcome.final v) 1
      | none => StepRes.done Outcome.malformed 1
    else
      match processToolCalls env w (msgs ++ [Message.assistant none msg.tool_calls])
          msg.tool_calls with
      | none => StepRes.done Outcome.toolError 1
      | some (w2, msgs2) => StepRes.cont w2 msgs2

/-- The while loop, fuelled: the result outcome together with the number of
model calls made from this boundary on; none when fuel ran out. -/
def runLoop (env : ChatEnv) : Nat → World → List Message → Nat → Option (Outcome × Nat)
  | 0, _, _, _ => none
  | fuel + 1, w, msgs, k =>
    match loopStep env w msgs k with
    | StepRes.done o c => some (o, c)
    | StepRes.cont w2 msgs2 =>
      match runLoop env fuel w2 msgs2 (k + 1) with
      | none => none
      | some (o, c) => some (o, c + 1)

/-- The fallback executor prompt literal of main.py. -/
def defaultExecutorPrompt : String :=
  "You are an execution agent. Use tools to: (1) fetch the target page, " ++
    "(2) extract the necessary data, (3) when ready, generate complete Python code and call " ++
    SQ ++ "answer_questions" ++ SQ ++ " with it. " ++
    "The code MUST print ONLY the final JSON array required by the task. " ++
    "Do not include explanations—return only the JSON array."

/-- main.py _load_executor_prompt: the prompts file when present, else the
fallback literal. -/
def load_executor_prompt (w : World) : String :=
  match w.files "prompts/executor.txt" with
  | some t => t
  | none => defaultExecutorPrompt

/-- main.py run_agent_for_api: seed the conversation with the system prompt
and the combined task and plan, then run the loop from boundary zero. -/
def run_agent_for_api (env : ChatEnv) (w : World) (task plan : String) (fuel : Nat) :
    Option (Outcome × Nat) :=
  runLoop env fuel w
    [Message.system (load_executor_prompt w),
      Message.user (task ++ "\n\nPlan:\n" ++ plan ++ "\n\nReturn ONLY the JSON array.")]
    0

/-- One entry of the static tools schema of main.py. -/
structure ToolSchema where
  name : String
  required : List String
  strict : Bool
deriving DecidableEq

/-- The static tools catalogue of main.py, with each declared required list. -/
def toolsSchema : List ToolSchema :=
  [⟨"scrape_website", ["url", "output_file"], true⟩,
    ⟨"get_relevant_data", ["file_name", "js_selector"], true⟩,
    ⟨"answer_questions", ["code"], true⟩]

/-- A world with nothing in it: every oracle fails or is inert. -/
def emptyWorld : World :=
  ⟨fun _ => none, fun _ => none, fun _ => none, fun _ => ⟨"", "", 0⟩⟩

/-- Sample markup with two elements of class x. -/
def EX_MARKUP : String := "<p class=\"x\">A</p><p class=\"x\">B</p>"

/-- The DOM tree the markup model gives EX_MARKUP. -/
def EX_DOC : List HNode :=
  [HNode.elem "p" [("class", "x")] [HNode.text "A"],
    HNode.elem "p" [("class", "x")] [HNode.text "B"]]

/-- Helper shape lemma: a successful tool pass appends exactly one tool
message per request, carrying that request id, in request order. -/
theorem processToolCalls_shape (env : ChatEnv) :
    ∀ (tcs : List ToolCall) (w : World) (msgs : List Message)
      (w2 : World) (msgs2 : List Message),
      processToolCalls env w msgs tcs = some (w2, msgs2) →
      ∃ outs : List String, outs.length = tcs.length ∧
        msgs2 = msgs ++ List.zipWith (fun tc out => Message.tool tc.id out) tcs outs := by
  intro tcs
  induction tcs with
  | nil =>
    intro w msgs w2 msgs2 h
    refine ⟨[], rfl, ?_⟩
    simp only [processToolCalls, Option.some.injEq, Prod.mk.injEq] at h
    simp [h.2.symm]
  | cons tc rest ih =>
    intro w msgs w2 msgs2 h
    simp only [processToolCalls] at h
    rcases hct : call_tool tc.name (parse_args env.parseArgsJson tc.arguments) w with ⟨o, w3⟩
    rw [hct] at h
    cases o with
    | none => simp at h
    | some out =>
      obtain ⟨outs, hlen, hmsgs⟩ := ih w3 (msgs ++ [Message.tool tc.id out]) w2 msgs2 h
      refine ⟨out :: outs, by simp [hlen], ?_⟩
      simp [hmsgs, List.append_assoc]

/-- Claim C1: if at an iteration boundary the elapsed time since the loop
started exceeds the configured budget, the loop fails with Timeout, and
zero further model calls are issued from that boundary on. -/
theorem run_timeout_no_more_calls (env : ChatEnv) (w : World) (msgs : List Message)
    (k fuel : Nat) (h : env.budget < env.elapsed k) :
    runLoop env (fuel + 1) w msgs k = some (Outcome.timeout, 0) := by
  simp [runLoop, loopStep, h]

/-- Environment whose clock is already past the budget. -/
def envAfterBudget : ChatEnv :=
  ⟨fun _ => ⟨some "[]", []⟩, fun _ => none, fun _ => none, fun _ => 120, 110⟩

/-- Witness for C1: at boundary zero with elapsed 120 over budget 110, the
loop ends with Timeout and zero model calls. -/
theorem run_timeout_no_more_calls_witness :
    envAfterBudget.budget < envAfterBudget.elapsed 0 ∧
      runLoop envAfterBudget 1 emptyWorld [] 0 = some (Outcome.timeout, 0) :=
  ⟨by decide, run_timeout_no_more_calls envAfterBudget emptyWorld [] 0 0 (by decide)⟩

/-- Claim C2: when an iteration continues past a reply carrying tool calls,
the new conversation is the old one, then the assistant message holding the
requests intact, then exactly one tool message per request carrying that
request id, in request order. -/
theorem tool_results_one_per_request_in_order (env : ChatEnv) (w : World)
    (msgs : List Message) (k : Nat) (w2 : World) (msgs2 : List Message)
    (hs : loopStep env w msgs k = StepRes.cont w2 msgs2) :
    ∃ outs : List String, outs.length = (env.chat msgs).tool_calls.length ∧
      msgs2 = msgs ++ [Message.assistant none (env.chat msgs).tool_calls] ++
        List.zipWith (fun tc out => Message.tool tc.id out) (env.chat msgs).tool_calls outs := by
  by_cases hb : env.budget < env.elapsed k
  · simp [loopStep, hb] at hs
  · by_cases he : (env.chat msgs).tool_calls = []
    · simp only [loopStep, hb, if_false, he] at hs
      rcases hp : env.parseJson (pyStrip ((env.chat msgs).content.getD "")) with _ | v <;>
        simp [hp] at hs
    · simp only [loopStep, hb, if_false, if_neg he] at hs
      rcases hpt : processToolCalls env w
          (msgs ++ [Message.assistant none (env.chat msgs).tool_calls])
          (env.chat msgs).tool_calls with _ | ⟨w3, msgs3⟩
      · rw [hpt] at hs; simp at hs
      · rw [hpt] at hs
        simp only [StepRes.cont.injEq] at hs
        obtain ⟨outs, hlen, hmsgs⟩ := processToolCalls_shape env (env.chat msgs).tool_calls w
          (msgs ++ [Message.assistant none (env.chat msgs).tool_calls]) w3 msgs3 hpt
        exact ⟨outs, hlen, by rw [← hs.2, hmsgs]⟩

/-- A tool call naming no known tool, used by the loop fixtures. -/
def tcUnknown : ToolCall := ⟨"id1", "footool", RawArgs.null⟩

/-- Environment whose gateway always requests one unknown tool. -/
def envOneUnknownCall : ChatEnv :=
  ⟨fun _ => ⟨none, [tcUnknown]⟩, fun _ => none, fun _ => none, fun _ => 0, 110⟩

/-- Witness for C2: one requested call produces exactly one tool message
with the request id, after the assistant message. -/
theorem tool_results_one_per_request_in_order_witness :
    ∃ outs : List String, outs.length = (envOneUnknownCall.chat []).tool_calls.length ∧
      [Message.assistant none [tcUnknown],
          Message.tool "id1" (unknownToolPayload "footool")] =
        [] ++ [Message.assistant none (envOneUnknownCall.chat []).tool_calls] ++
          List.zipWith (fun tc out => Message.tool tc.id out)
            (envOneUnknownCall.chat []).tool_calls outs :=
  tool_results_one_per_request_in_order envOneUnknownCall emptyWorld [] 0 emptyWorld
    [Message.assistant none [tcUnknown], Message.tool "id1" (unknownToolPayload "footool")]
    rfl

/-- Claim C3: a reply with no tool calls ends the loop after exactly this one
model call: the content is stripped and json-parsed, a successful parse is
returned as the final value and a failed parse fails the run at once. -/
theorem final_reply_parse_or_fail (env : ChatEnv) (w : World) (msgs : List Message)
    (k fuel : Nat) (hb : ¬ env.budget < env.elapsed k)
    (ht : (env.chat msgs).tool_calls = []) :
    runLoop env (fuel + 1) w msgs k =
      some (match env.parseJson (pyStrip ((env.chat msgs).content.getD "")) with
            | some v => Outcome.final v
            | none => Outcome.malformed, 1) := by
  rcases hp : env.parseJson (pyStrip ((env.chat msgs).content.getD "")) with _ | v <;>
    simp [runLoop, loopStep, hb, ht, hp]

/-- Environment whose gateway immediately answers with a JSON array text and
whose json library decodes that text. -/
def envFinalArray : ChatEnv :=
  ⟨fun _ => ⟨some "  [1,2,3] ", []⟩,
    fun s => if s = "[1,2,3]" then some (Json.arr [Json.num 1, Json.num 2, Json.num 3]) else none,
    fun _ => none, fun _ => 0, 110⟩

/-- Witness for C3: the stripped terminal content parses and the loop returns
exactly that value after one model call. -/
theorem final_reply_parse_or_fail_witness :
    runLoop envFinalArray 1 emptyWorld [] 0 =
      some (Outcome.final (Json.arr [Json.num 1, Json.num 2, Json.num 3]), 1) :=
  final_reply_parse_or_fail envFinalArray emptyWorld [] 0 0 (by decide) rfl

/-- Claim C4: when the child process prints the array text and exits 0 the
run-code tool returns that text verbatim, and in general whenever the
process does not hit the failure condition (non-zero exit with no stdout)
the tool returns captured stdout verbatim, with no JSON validation. -/
theorem run_code_stdout_verbatim (w : World) (code : String) :
    ((w.runProc code).returncode = 0 ∧ (w.runProc code).stdout = "[1,2,3]" →
      (answer_questions code w).fst = "[1,2,3]") ∧
    (¬ ((w.runProc code).returncode ≠ 0 ∧ pyStrip (w.runProc code).stdout = "") →
      (answer_questions code w).fst = (w.runProc code).stdout) := by
  constructor
  · rintro ⟨h0, hs⟩
    rw [answer_questions, if_neg (by simp [h0]), hs]
  · intro h
    rw [answer_questions, if_neg h]

/-- World whose child process prints the array and succeeds. -/
def wStdoutArray : World :=
  ⟨fun _ => none, fun _ => none, fun _ => none, fun _ => ⟨"[1,2,3]", "", 0⟩⟩

/-- Witness for C4: the tool output is the printed array text itself. -/
theorem run_code_stdout_verbatim_witness :
    (answer_questions "print([1,2,3])" wStdoutArray).fst = "[1,2,3]" :=
  (run_code_stdout_verbatim wStdoutArray "print([1,2,3])").1 ⟨rfl, rfl⟩

/-- World whose child process exits 1 writing nothing on either stream, as
a script calling sys.exit does. -/
def wSilentExit : World :=
  ⟨fun _ => none, fun _ => none, fun _ => none, fun _ => ⟨"", "", 1⟩⟩

/-- Counterexample to C5 as stated: on a process that exits non-zero with
empty stdout and empty stderr, the payload embeds an empty error stream, so
the error-stream field is not always non-empty. -/
theorem run_code_failure_nonempty_stderr_refuted :
    ¬ ∀ (w : World) (code : String),
        (w.runProc code).returncode ≠ 0 → pyStrip (w.runProc code).stdout = "" →
        (answer_questions code w).fst = codeFailedPayload (w.runProc code).stderr ∧
          (w.runProc code).stderr ≠ "" := by
  intro h
  exact (h wSilentExit "import sys; sys.exit(1)" (by decide) rfl).2 rfl

/-- Claim C5 as amended: on non-zero exit with whitespace-only stdout the
run-code tool returns the JSON payload with error code_failed and a stderr
field embedding the captured error stream (possibly empty), and the
dispatcher hands this payload back as tool output data, not an exception. -/
theorem run_code_failure_payload (w : World) (code : String) (args : Args)
    (h0 : (w.runProc code).returncode ≠ 0)
    (h1 : pyStrip (w.runProc code).stdout = "")
    (h2 : args.code = some code) :
    (answer_questions code w).fst = codeFailedPayload (w.runProc code).stderr ∧
      (call_tool "answer_questions" args w).fst =
        some (codeFailedPayload (w.runProc code).stderr) := by
  have ha : (answer_questions code w).fst = codeFailedPayload (w.runProc code).stderr := by
    rw [answer_questions, if_pos ⟨h0, h1⟩]
  refine ⟨ha, ?_⟩
  rw [call_tool, if_neg (by decide), if_neg (by decide), if_pos rfl, h2]
  simp [ha]

/-- Witness for C5 as amended: concrete failing process with a traceback on
the error stream; the payload embeds it and is returned as data. -/
def wTraceback : World :=
  ⟨fun _ => none, fun _ => none, fun _ => none, fun _ => ⟨"", "Traceback: boom", 2⟩⟩

/-- Witness theorem for the amended C5. -/
theorem run_code_failure_payload_witness :
    (answer_questions "raise ValueError" wTraceback).fst =
        codeFailedPayload "Traceback: boom" ∧
      (call_tool "answer_questions" { code := some "raise ValueError" } wTraceback).fst =
        some (codeFailedPayload "Traceback: boom") :=
  run_code_failure_payload wTraceback "raise ValueError" { code := some "raise ValueError" }
    (by decide) rfl rfl

/-- Claim C6: a fast-path response with success status and body length at or
above the size threshold makes the adapter write that body to the output
path and report the direct-fetch engine without consulting the rendering
oracle; a below-threshold or non-success fast path, or a failed fast path,
falls back to the rendering engine. -/
theorem fetch_threshold_engine (w : World) (url outf : String) :
    (∀ r : FetchResp, w.fetch url = some r → r.status = 200 →
      SIZE_THRESHOLD ≤ r.text.length →
      (scrape_website url outf w).fst = some ⟨true, outf, url, "httpx"⟩ ∧
        ((scrape_website url outf w).snd).files outf = some r.text ∧
        ∀ rend : String → Option String,
          (scrape_website url outf { w with render := rend }).fst =
            some ⟨true, outf, url, "httpx"⟩) ∧
    (∀ r : FetchResp, w.fetch url = some r →
      ¬ (r.status = 200 ∧ SIZE_THRESHOLD ≤ r.text.length) →
      ∀ html, w.render url = some html →
        (scrape_website url outf w).fst = some ⟨true, outf, url, "playwright"⟩) ∧
    (w.fetch url = none → ∀ html, w.render url = some html →
      (scrape_website url outf w).fst = some ⟨true, outf, url, "playwright"⟩) := by
  have hiff : ∀ n : Nat, 10000 < n ↔ SIZE_THRESHOLD ≤ n := by
    intro n; rw [SIZE_THRESHOLD]; omega
  refine ⟨?_, ?_, ?_⟩
  · intro r hf hs hl
    have hcond : r.status = 200 ∧ 10000 < r.text.length := ⟨hs, (hiff _).mpr hl⟩
    refine ⟨?_, ?_, ?_⟩
    · simp only [scrape_website, hf, if_pos hcond]
    · simp only [scrape_website, hf, if_pos hcond]
      simp [setFile]
    · intro rend
      simp only [scrape_website, hf, if_pos hcond]
  · intro r hf hcond html hr
    have hneg : ¬ (r.status = 200 ∧ 10000 < r.text.length) := by
      intro hc; exact hcond ⟨hc.1, (hiff _).mp hc.2⟩
    simp only [scrape_website, hf, if_neg hneg, scrapeFallback, hr]
  · intro hf html hr
    simp only [scrape_website, hf, scrapeFallback, hr]

/-- A body comfortably above the threshold. -/
def bigBody : String := String.mk (List.replicate 10001 'a')

/-- The length of the large test body. -/
theorem bigBody_length : bigBody.length = 10001 := by
  rw [bigBody, String.length]
  exact List.length_replicate 10001 'a'

/-- World whose fast path returns a large 200 response and whose rendering
oracle fails, so only the fast path can explain a successful scrape. -/
def wBigFetch : World :=
  ⟨fun _ => none, fun _ => some ⟨200, bigBody⟩, fun _ => none, fun _ => ⟨"", "", 0⟩⟩

/-- Witness for C6: with the large 200 fast-path body the adapter reports the
httpx engine and stores the body at the output path. -/
theorem fetch_threshold_engine_witness :
    (scrape_website "https://w.example" "out.html" wBigFetch).fst =
        some ⟨true, "out.html", "https://w.example", "httpx"⟩ ∧
      ((scrape_website "https://w.example" "out.html" wBigFetch).snd).files "out.html" =
        some bigBody :=
  ⟨((fetch_threshold_engine wBigFetch "https://w.example" "out.html").1 ⟨200, bigBody⟩ rfl rfl
      (by rw [bigBody_length]; rw [SIZE_THRESHOLD])).1,
    ((fetch_threshold_engine wBigFetch "https://w.example" "out.html").1 ⟨200, bigBody⟩ rfl rfl
      (by rw [bigBody_length]; rw [SIZE_THRESHOLD])).2.1⟩

/-- Claim C7: with a selector the extractor returns the matched elements
visible text in document order plus the match count, as the two-paragraph
example shows concretely, and with no selector it returns the whole document
visible text as one string. -/
theorem extract_selector_texts (w : World) (f : String) :
    (w.files f = some EX_MARKUP →
      get_relevant_data f (some ".x") w =
        some (ExtractResult.selected ["A", "B"] 2 ".x")) ∧
    (∀ sel html doc, w.files f = some html → parseHtml html = some doc → sel ≠ "" →
      get_relevant_data f (some sel) w =
        some (ExtractResult.selected ((selectList sel doc).map getTextStrip)
          (selectList sel doc).length sel)) ∧
    (∀ html doc, w.files f = some html → parseHtml html = some doc →
      get_relevant_data f none w = some (ExtractResult.whole (docText doc))) := by
  refine ⟨?_, ?_, ?_⟩
  · intro hf
    rw [get_relevant_data, hf]
    decide
  · intro sel html doc hf hp hs
    have htr : pyTruthy (some sel) = true := by
      have h0 : sel.isEmpty = false := by
        cases hE : sel.isEmpty
        · rfl
        · exact absurd ((String.isEmpty_iff sel).mp hE) hs
      simp [pyTruthy, h0]
    rw [get_relevant_data, hf]
    simp only [hp, htr, if_true, Option.getD]
  · intro html doc hf hp
    rw [get_relevant_data, hf]
    simp only [hp, pyTruthy, Bool.false_eq_true, if_false]

/-- World holding the two-paragraph sample markup at every path. -/
def wSampleMarkup : World :=
  ⟨fun _ => some EX_MARKUP, fun _ => none, fun _ => none, fun _ => ⟨"", "", 0⟩⟩

/-- Witness for C7: the class selector yields the two texts in order and
count two, and no selector yields the joined visible text. -/
theorem extract_selector_texts_witness :
    get_relevant_data "saved.html" (some ".x") wSampleMarkup =
        some (ExtractResult.selected ["A", "B"] 2 ".x") ∧
      get_relevant_data "saved.html" none wSampleMarkup =
        some (ExtractResult.whole (docText EX_DOC)) :=
  ⟨(extract_selector_texts wSampleMarkup "saved.html").1 rfl,
    (extract_selector_texts wSampleMarkup "saved.html").2.2 EX_MARKUP EX_DOC rfl rfl⟩

/-- Counterexample to C8 as stated: the dispatcher output for an unknown
tool is the payload whose error field names the tool, not the fixed text
"unknown tool", as dispatching the name footool shows. -/
theorem unknown_tool_literal_refuted :
    ¬ ∀ (name : String) (args : Args) (w : World),
        name ∉ ["scrape_website", "get_relevant_data", "answer_questions"] →
        (call_tool name args w).fst =
          some "\x7b\"ok\": false, \"error\": \"unknown tool\"\x7d" := by
  intro h
  have h1 := h "footool" {} emptyWorld (by decide)
  rw [show (call_tool "footool" {} emptyWorld).fst =
      some (unknownToolPayload "footool") from rfl] at h1
  exact absurd h1 (by decide)

/-- Claim C8 as amended: for a name outside the enumerated set the
dispatcher returns, as tool-result data and without raising, the JSON
payload with ok false and an error field reading Unknown tool with the
name quoted, and an iteration whose reply requests only that name
continues to the next iteration instead of failing. -/
theorem unknown_tool_yields_error_payload (name : String)
    (h : name ∉ ["scrape_website", "get_relevant_data", "answer_questions"]) :
    (∀ (args : Args) (w : World),
      call_tool name args w = (some (unknownToolPayload name), w)) ∧
    (∀ (env : ChatEnv) (w : World) (msgs : List Message) (k : Nat)
      (tid : String) (raw : RawArgs),
      ¬ env.budget < env.elapsed k →
      (env.chat msgs).tool_calls = [⟨tid, name, raw⟩] →
      loopStep env w msgs k = StepRes.cont w
        (msgs ++ [Message.assistant none [⟨tid, name, raw⟩],
          Message.tool tid (unknownToolPayload name)])) := by
  simp only [List.mem_cons, List.mem_singleton, not_or] at h
  obtain ⟨h1, h2, h3, _⟩ := h
  have hcall : ∀ (args : Args) (w : World),
      call_tool name args w = (some (unknownToolPayload name), w) := by
    intro args w
    rw [call_tool, if_neg h1, if_neg h2, if_neg h3]
  refine ⟨hcall, ?_⟩
  intro env w msgs k tid raw hb ht
  rw [loopStep, if_neg hb]
  simp only [ht, List.cons_ne_self, if_neg, reduceCtorEq, ite_false]
  simp [processToolCalls, hcall, List.append_assoc]

/-- Witness for the amended C8: dispatching the name footool returns the
concrete unknown-tool payload as data with the world untouched. -/
theorem unknown_tool_yields_error_payload_witness :
    call_tool "footool" {} emptyWorld =
      (some (unknownToolPayload "footool"), emptyWorld) :=
  (unknown_tool_yields_error_payload "footool" (by decide)).1 {} emptyWorld

/-- The scrape result component only reads the fetch and render oracles, so
worlds agreeing on those give the same result. -/
theorem scrape_fst_congr (url outf : String) (w w2 : World)
    (hf : w2.fetch = w.fetch) (hr : w2.render = w.render) :
    (scrape_website url outf w2).fst = (scrape_website url outf w).fst := by
  simp only [scrape_website, hf]
  cases hfu : w.fetch url with
  | none =>
    simp only [hfu, scrapeFallback, hr]
    cases hru : w.render url <;> simp [hru]
  | some r =>
    simp only [hfu]
    by_cases hc : r.status = 200 ∧ 10000 < r.text.length
    · simp only [if_pos hc]
    · simp only [if_neg hc, scrapeFallback, hr]
      cases hru : w.render url <;> simp [hru]

/-- Scraping can write a file but never changes the fetch, render or process
oracles. -/
theorem scrape_snd_oracles (u o : String) (w : World) :
    ((scrape_website u o w).snd).fetch = w.fetch ∧
      ((scrape_website u o w).snd).render = w.render := by
  simp only [scrape_website]
  cases hfu : w.fetch u with
  | none =>
    simp only [hfu, scrapeFallback]
    cases hru : w.render u <;> simp [hru, setFile]
  | some r =>
    simp only [hfu]
    by_cases hc : r.status = 200 ∧ 10000 < r.text.length
    · simp only [if_pos hc]; simp [setFile]
    · simp only [if_neg hc, scrapeFallback]
      cases hru : w.render u <;> simp [hru, setFile]

/-- The code-runner output only reads the process oracle, so worlds agreeing
on it give the same output. -/
theorem answer_fst_congr (code : String) (w w2 : World)
    (hp : w2.runProc = w.runProc) :
    (answer_questions code w2).fst = (answer_questions code w).fst := by
  rw [answer_questions, answer_questions, hp]
  by_cases hc : (w.runProc code).returncode ≠ 0 ∧ pyStrip (w.runProc code).stdout = ""
  · rw [if_pos hc, if_pos hc]
  · rw [if_neg hc, if_neg hc]

/-- Running code writes the scratch file but never changes the process
oracle. -/
theorem answer_snd_runProc (code : String) (w : World) :
    ((answer_questions code w).snd).runProc = w.runProc := by
  rw [answer_questions]
  by_cases hc : (w.runProc code).returncode ≠ 0 ∧ pyStrip (w.runProc code).stdout = ""
  · rw [if_pos hc]; simp [setFile]
  · rw [if_neg hc]; simp [setFile]

/-- Claim C9: dispatch is idempotent against an unchanged underlying
resource: re-dispatching the same name and arguments right after a first
dispatch, whose own file writes are the only world change, yields the same
output, raising included. -/
theorem dispatch_idempotent (name : String) (args : Args) (w : World) :
    (call_tool name args (call_tool name args w).snd).fst =
      (call_tool name args w).fst := by
  by_cases h1 : name = "scrape_website"
  · subst h1
    rcases hu : args.url with _ | u
    · have hct : ∀ w0 : World, call_tool "scrape_website" args w0 = (none, w0) := by
        intro w0; rw [call_tool, if_pos rfl, hu]
      rw [hct, hct]
    · have hct : ∀ w0 : World, call_tool "scrape_website" args w0 =
          ((scrape_website u (args.output_file.getD "outputs/scraped_content.html") w0).fst.map
              scrapeResultJson,
            (scrape_website u (args.output_file.getD "outputs/scraped_content.html") w0).snd) := by
        intro w0; rw [call_tool, if_pos rfl, hu]
      rw [hct, hct]
      exact congrArg (Option.map scrapeResultJson)
        (scrape_fst_congr u (args.output_file.getD "outputs/scraped_content.html") w _
          (scrape_snd_oracles u (args.output_file.getD "outputs/scraped_content.html") w).1
          (scrape_snd_oracles u (args.output_file.getD "outputs/scraped_content.html") w).2)
  · by_cases h2 : name = "get_relevant_data"
    · subst h2
      rcases hf : args.file_name with _ | f
      · have hct : ∀ w0 : World, call_tool "get_relevant_data" args w0 = (none, w0) := by
          intro w0
          rw [call_tool, if_neg (by decide : ¬ ("get_relevant_data" = "scrape_website")),
            if_pos rfl, hf]
        rw [hct, hct]
      · have hct : ∀ w0 : World, call_tool "get_relevant_data" args w0 =
            ((get_relevant_data f args.js_selector w0).map extractResultJson, w0) := by
          intro w0
          rw [call_tool, if_neg (by decide : ¬ ("get_relevant_data" = "scrape_website")),
            if_pos rfl, hf]
        rw [hct, hct]
    · by_cases h3 : name = "answer_questions"
      · subst h3
        rcases hc : args.code with _ | c
        · have hct : ∀ w0 : World, call_tool "answer_questions" args w0 = (none, w0) := by
            intro w0
            rw [call_tool, if_neg (by decide : ¬ ("answer_questions" = "scrape_website")),
              if_neg (by decide : ¬ ("answer_questions" = "get_relevant_data")), if_pos rfl, hc]
          rw [hct, hct]
        · have hct : ∀ w0 : World, call_tool "answer_questions" args w0 =
              (some (answer_questions c w0).fst, (answer_questions c w0).snd) := by
            intro w0
            rw [call_tool, if_neg (by decide : ¬ ("answer_questions" = "scrape_website")),
              if_neg (by decide : ¬ ("answer_questions" = "get_relevant_data")), if_pos rfl, hc]
          rw [hct, hct]
          exact congrArg some (answer_fst_congr c w _ (answer_snd_runProc c w))
      · have hct : ∀ w0 : World, call_tool name args w0 =
            (some (unknownToolPayload name), w0) := by
          intro w0; rw [call_tool, if_neg h1, if_neg h2, if_neg h3]
        rw [hct, hct]

/-- Claim C10: the empty selector behaves exactly as no selector: the result
is the whole-document text under the data key alone (the whole constructor
carries no count and no selector), even though the schema lists js_selector
among the required parameters of the tool. -/
theorem empty_selector_full_text (w : World) (f : String) :
    get_relevant_data f (some "") w = get_relevant_data f none w ∧
    (∃ ts ∈ toolsSchema, ts.name = "get_relevant_data" ∧ "js_selector" ∈ ts.required) ∧
    (∀ html doc, w.files f = some html → parseHtml html = some doc →
      get_relevant_data f (some "") w = some (ExtractResult.whole (docText doc))) := by
  refine ⟨?_, ⟨⟨"get_relevant_data", ["file_name", "js_selector"], true⟩, by decide⟩, ?_⟩
  · rw [get_relevant_data, get_relevant_data]
    cases hfl : w.files f with
    | none => rfl
    | some html =>
      cases hp : parseHtml html with
      | none => rfl
      | some doc => rfl
  · intro html doc hf hp
    rw [get_relevant_data, hf]
    simp only [hp, pyTruthy, String.isEmpty, Bool.not_eq_true]
    rfl

/-- Witness for C10: on the sample markup the empty selector returns the
joined visible text with no count and no selector. -/
theorem empty_selector_full_text_witness :
    get_relevant_data "saved.html" (some "") wSampleMarkup =
      some (ExtractResult.whole (docText EX_DOC)) :=
  (empty_selector_full_text wSampleMarkup "saved.html").2.2 EX_MARKUP EX_DOC rfl rfl
